import Mathlib

/-!
Verification of the rendering pipeline of `pycard.py`.

The development shallowly embeds the logical core of the program:

* the fragment-expander loop of `CardRenderer.render_cards` (rows → rendered
  fragments, with the `ignore` and `num_cards` control fields),
* the custom-header loading and the final document write of `render_cards`,
* the event handler `RenderingEventHandler.on_any_event`,
* path construction in `CardRenderer.__init__` and renderer construction in
  `main` (single-deck vs. pattern mode),
* the discovery helper `re_glob`.

External collaborators (the Jinja2 template engine, the filesystem watcher,
the live-reload server) are abstracted as function parameters or outcome
values, exactly at the boundaries where the source calls them.
-/

namespace Pycard

/-- ASCII decimal digit test, the character class `[0-9]` of the regex on
line 67 of `pycard.py`. -/
def isDigitChar (c : Char) : Bool :=
  '0' ≤ c && c ≤ '9'

/-- Models `re.match("^[^0-9]*$", s)` (line 67): the pattern matches exactly
when the string contains no ASCII digit.  (`[^0-9]*` greedily consumes
non-digits, and `$` can only match at the end of the string or before a
trailing newline, which is itself a non-digit; so a successful match forces
every character to be a non-digit, and conversely a digit-free string always
matches.) -/
def digitFree (s : String) : Bool :=
  s.data.all (fun c => !(isDigitChar c))

/-- Parse a nonempty string of ASCII digits as a natural number (the digit
body accepted by Python `int`). -/
def parseDigits : List Char → Option Nat
  | [] => none
  | cs =>
    if cs.all isDigitChar then
      some (cs.foldl (fun acc c => acc * 10 + (c.toNat - '0'.toNat)) 0)
    else
      none

/-- Strip leading and trailing whitespace from a character list, as Python
`int` strips the argument before parsing. -/
def stripWs (cs : List Char) : List Char :=
  ((cs.dropWhile Char.isWhitespace).reverse.dropWhile Char.isWhitespace).reverse

/-- Models Python `int(s)` (line 70): optional surrounding whitespace, an
optional sign, then a nonempty run of decimal digits; any other shape raises
`ValueError`, modelled as `none`.  (Python's underscore digit-grouping is not
modelled; none of the inputs considered here use it.) -/
def pyInt (s : String) : Option Int :=
  match stripWs s.data with
  | '-' :: rest => (parseDigits rest).map (fun n => -(n : Int))
  | '+' :: rest => (parseDigits rest).map (fun n => (n : Int))
  | cs => (parseDigits cs).map (fun n => (n : Int))

/-- Lower-case an ASCII letter, as `str.lower` does on the values appearing
in the `ignore` field. -/
def lowerChar (c : Char) : Char :=
  if 'A' ≤ c && c ≤ 'Z' then Char.ofNat (c.toNat + 32) else c

/-- Models Python `str.lower()` on line 58 (ASCII case folding suffices for
the boolean-like values of the `ignore` field). -/
def lowerStr (s : String) : String :=
  String.mk (s.data.map lowerChar)

/-- A CSV row as produced by `csv.DictReader`: a field-name → raw-string
mapping, embedded as an association list (first binding wins, as dict lookup
does for the unique CSV header names). -/
structure Row where
  fields : List (String × String)
  deriving DecidableEq, Repr

/-- Models `card_data.get(key)`: `none` when the field is absent. -/
def Row.get (r : Row) (k : String) : Option String :=
  (r.fields.find? (fun p => p.1 == k)).map Prod.snd

/-- Models line 58, `str(card_data.get('ignore', "false")).lower() == "true"`:
the row is skipped entirely when the `ignore` field (defaulting to "false")
case-insensitively equals "true". -/
def ignoredRow (r : Row) : Bool :=
  lowerStr ((r.get "ignore").getD "false") == "true"

/-- Models lines 66–70: the repetition count for a row.  `num_cards` absent or
digit-free gives the default 1; otherwise the value goes to `int()`, whose
`ValueError` on an unparsable string is the `Except.error` case (it aborts the
render pass). -/
def numCardsCount (r : Row) : Except String Int :=
  match r.get "num_cards" with
  | none => Except.ok 1
  | some s =>
    if digitFree s then Except.ok 1
    else
      match pyInt s with
      | some n => Except.ok n
      | none => Except.error s

/-- Models the expander loop of lines 57–72.  `render i row` stands for
`template.render(card_data, __card_data=card_data, __time=str(time.time()))`
on the `i`-th row: the template engine is external, so the rendered text is a
parameter; it is invoked once per non-ignored row and the result is appended
`num_cards` times (`range(0, n)` is empty for `n ≤ 0`).  An exception from
`int()` propagates out of the loop. -/
def expandRows (render : Nat → Row → String) : Nat → List Row → Except String (List String)
  | _, [] => Except.ok []
  | i, row :: rest =>
    if ignoredRow row then
      expandRows render (i + 1) rest
    else
      match numCardsCount row with
      | Except.error e => Except.error e
      | Except.ok n =>
        match expandRows render (i + 1) rest with
        | Except.error e => Except.error e
        | Except.ok tail => Except.ok (List.replicate n.toNat (render i row) ++ tail)

/-- Models lines 75–79: `custom_header = None`, replaced by the file's
contents only when the header file exists.  A missing file yields `none`,
an existing file yields `some` of its contents (possibly `some ""`). -/
def customHeaderOf (headerExists : Bool) (contents : String) : Option String :=
  if headerExists then some contents else none

/-- The inputs of one `render_cards()` pass, with every external effect made
explicit: the outcome of reading the CSV file, the single-card template
application (the external template engine, per row index), the custom header
file's existence and contents, the cards-composition template application
(given the fragments and the custom header; `css_file` is a fixed string
baked into it), and the output file's content before the pass. -/
structure RenderPass where
  csvRows : Except String (List Row)
  cardTemplate : Nat → Row → String
  headerExists : Bool
  headerContents : String
  composeTemplate : List String → Option String → Except String String
  priorOutput : String

/-- Models the body of `CardRenderer.render_cards` (lines 37–91) as a state
transformer on the output file: the result is the output file's content after
the pass together with the exception escaping the pass, if any.  A failure
while reading the CSV or expanding the rows happens before the output file is
touched, so the prior content survives; but the output file is opened with
mode `"w"` (line 84) — and hence truncated — before `template.render` on
line 86 is evaluated, so a composition failure leaves the output empty. -/
def render_cards (p : RenderPass) : String × Option String :=
  match p.csvRows with
  | Except.error e => (p.priorOutput, some e)
  | Except.ok rows =>
    match expandRows p.cardTemplate 0 rows with
    | Except.error e => (p.priorOutput, some e)
    | Except.ok fragments =>
      match p.composeTemplate fragments (customHeaderOf p.headerExists p.headerContents) with
      | Except.error e => ("", some e)
      | Except.ok doc => (doc, none)

/-- One active `CardRenderer` as seen by `RenderingEventHandler`: its id (to
record which renderers ran), its `all_cards_rendered_path`, and the outcome
its `render_cards()` would have on this pass (the pass body is opaque to the
handler; only success or a raised exception matters here). -/
structure SessionSpec where
  id : String
  outputPath : String
  renderResult : Except String Unit

/-- Models the loop of lines 102–103: `render_cards()` is invoked on each
renderer in order; an exception propagates out of the `for` loop, so the
remaining renderers are not invoked.  Returns the ids of the renderers whose
`render_cards()` was invoked, and the escaping exception, if any. -/
def runRenderLoop : List SessionSpec → List String × Option String
  | [] => ([], none)
  | s :: rest =>
    match s.renderResult with
    | Except.error e => ([s.id], some e)
    | Except.ok _ =>
      (s.id :: (runRenderLoop rest).fst, (runRenderLoop rest).snd)

/-- Models `RenderingEventHandler.on_any_event` (lines 98–103): if the
event's `src_path` equals some renderer's `all_cards_rendered_path` the
handler returns without rendering; otherwise every renderer's
`render_cards()` is invoked in order. -/
def on_any_event (sessions : List SessionSpec) (eventPath : String) : List String × Option String :=
  if (sessions.map SessionSpec.outputPath).contains eventPath then
    ([], none)
  else
    runRenderLoop sessions

/-- Models `os.path.join(a, b)` for the relative path components used here. -/
def joinPath (a b : String) : String :=
  a ++ "/" ++ b

/-- Models `CardRenderer.get_path` (lines 34–35). -/
def get_path (input_path p extension : String) : String :=
  joinPath input_path (p ++ "." ++ extension)

/-- The paths a `CardRenderer.__init__` derives (lines 21–32).  The
`cards_template_path`, fixed next to the program file itself, is omitted: it
does not depend on the deck. -/
structure CardRenderer where
  csv_card_path : String
  css_file : String
  custom_header_path : String
  single_card_template_path : String
  all_cards_rendered_path : String
  deriving DecidableEq, Repr

/-- Models `CardRenderer.__init__` (lines 21–32).  Python truthiness on
lines 25–26 makes both `None` and the empty string fall back to the
prefix-derived defaults. -/
def mkCardRenderer (input_path p rendered_cards_file : String)
    (csv_file css_file : Option String) : CardRenderer :=
  { csv_card_path :=
      match csv_file with
      | some s => if s = "" then get_path input_path p "csv" else s
      | none => get_path input_path p "csv"
    css_file :=
      match css_file with
      | some s => if s = "" then p ++ ".css" else s
      | none => p ++ ".css"
    custom_header_path := get_path input_path p "header.html"
    single_card_template_path := get_path input_path p "html.jinja2"
    all_cards_rendered_path := joinPath input_path rendered_cards_file }

/-- Models `template.format(arg)` for the format strings used in `main`
(lines 188–191): each plain `\x7b\x7d` replacement field is replaced by the
deck identifier.  (Indexed or named fields do not occur in these templates.) -/
def pyFormatReplace (s arg : String) : String :=
  String.intercalate arg (s.splitOn "\x7b\x7d")

/-- Models `x.format(arg)` when `x` may be `None`: `None.format(...)` raises
`AttributeError` (modelled as the error case), which is what happens on
lines 190–191 when `--csv`/`--css` were left at their default `None`. -/
def fmtOpt : Option String → String → Except String String
  | none, _ => Except.error "AttributeError: NoneType has no attribute format"
  | some s, arg => Except.ok (pyFormatReplace s arg)

/-- The list comprehension of lines 186–194, one renderer per discovered
identifier, evaluating the `.format` calls of each element left to right
before moving to the next. -/
def buildRenderersList (assets_path pfx rendered_cards_file : String)
    (csv_file css_file : Option String) : List String → Except String (List CardRenderer)
  | [] => Except.ok []
  | m :: ms => do
    let csvf ← fmtOpt csv_file m
    let cssf ← fmtOpt css_file m
    let rest ← buildRenderersList assets_path pfx rendered_cards_file csv_file css_file ms
    pure (mkCardRenderer assets_path (pyFormatReplace pfx m)
      (pyFormatReplace rendered_cards_file m) (some csvf) (some cssf) :: rest)

/-- Models the renderer construction of `main` (lines 182–194).  In
single-deck mode (no `--pattern`) one renderer is built from the arguments
as given.  In pattern mode, one renderer is built per discovered identifier,
with `.format(match)` applied to the prefix, the rendered-file name, and the
`--csv`/`--css` arguments — unconditionally, so a `None` there raises before
any renderer exists.  `matchIds` is the identifier list from `re_glob`, in
insertion order. -/
def buildRenderers (assets_path pfx rendered_cards_file : String)
    (csv_file css_file : Option String) (pattern : Option String)
    (matchIds : List String) : Except String (List CardRenderer) :=
  match pattern with
  | none =>
    Except.ok [mkCardRenderer assets_path pfx rendered_cards_file csv_file css_file]
  | some _ =>
    buildRenderersList assets_path pfx rendered_cards_file csv_file css_file matchIds

/-- Python dict insertion: the key keeps its first position, the value is
overwritten (the semantics of the dict comprehension in `re_glob`). -/
def insertOrReplace : List (String × String) → String → String → List (String × String)
  | [], k, v => [(k, v)]
  | (k0, v0) :: rest, k, v =>
    if k0 = k then (k0, v) :: rest else (k0, v0) :: insertOrReplace rest k v

/-- Models `re_glob` (lines 154–162): a dict comprehension over the directory
listing, keyed by the match's first capturing group, valued by the filename.
The regex is external, abstracted as `matchFn : filename → Option capture`
(`none` when `regex.match` fails); `files` is `os.listdir`'s order. -/
def re_glob (matchFn : String → Option String) (files : List String) :
    List (String × String) :=
  files.foldl
    (fun acc file =>
      match matchFn file with
      | some g => insertOrReplace acc g file
      | none => acc)
    []

/-! ### Specification-side definitions

These follow the words of the specification and of the claims, to be compared
with the code-derived definitions above. -/

/-- The repetition count `N` as the claims word it: `num_cards` parsed as a
non-negative integer, defaulting to 1 when the field is absent or its value
contains no digit characters.  (The `getD 0` is never reached under the
well-formedness hypothesis of the claims.) -/
def claimN (r : Row) : Nat :=
  match r.get "num_cards" with
  | none => 1
  | some s => if digitFree s then 1 else ((pyInt s).getD 0).toNat

/-- The expander output as the specification words it: in row order, the
concatenation over non-ignored rows of `claimN` contiguous identical copies
of that row's rendered text. -/
def specExpandFrom (render : Nat → Row → String) : Nat → List Row → List String
  | _, [] => []
  | i, row :: rest =>
    (if ignoredRow row then [] else List.replicate (claimN row) (render i row))
      ++ specExpandFrom render (i + 1) rest

/-- Spec-side "last match wins": the last file of the listing whose capture
equals `key`. -/
def lastMatch (matchFn : String → Option String) (key : String) :
    List String → Option String
  | [] => none
  | f :: fs =>
    match lastMatch matchFn key fs with
    | some v => some v
    | none => if matchFn f == some key then some f else none

/-- A row's `num_cards` is well formed for claim C1: absent, digit-free, or
parsed by `int()` to a non-negative value. -/
def goodCountB (r : Row) : Bool :=
  match r.get "num_cards" with
  | none => true
  | some s =>
    digitFree s ||
      (match pyInt s with
       | some n => decide (0 ≤ n)
       | none => false)

/-! ### Supporting lemmas -/

lemma parseDigits_eq_none_of_nondigit (l : List Char)
    (h : ∀ c ∈ l, isDigitChar c = false) : parseDigits l = none := by
  cases l with
  | nil => rfl
  | cons c rest =>
    have hc := h c (List.mem_cons_self c rest)
    simp [parseDigits, List.all_cons, hc]

lemma mem_of_mem_stripWs {c : Char} {cs : List Char} (h : c ∈ stripWs cs) : c ∈ cs := by
  unfold stripWs at h
  rw [List.mem_reverse] at h
  have h1 := (List.dropWhile_sublist (l := (cs.dropWhile Char.isWhitespace).reverse)
    (p := Char.isWhitespace)).mem h
  rw [List.mem_reverse] at h1
  exact (List.dropWhile_sublist (l := cs) (p := Char.isWhitespace)).mem h1

lemma pyInt_eq_none_of_digitFree (s : String) (h : digitFree s = true) : pyInt s = none := by
  have hall : ∀ c ∈ stripWs s.data, isDigitChar c = false := by
    intro c hc
    have := List.all_eq_true.mp h c (mem_of_mem_stripWs hc)
    simpa using this
  unfold pyInt
  split
  · rename_i rest heq
    have : parseDigits rest = none := by
      apply parseDigits_eq_none_of_nondigit
      intro c hc
      exact hall c (heq ▸ List.mem_cons_of_mem _ hc)
    simp [this]
  · rename_i rest heq
    have : parseDigits rest = none := by
      apply parseDigits_eq_none_of_nondigit
      intro c hc
      exact hall c (heq ▸ List.mem_cons_of_mem _ hc)
    simp [this]
  · have : parseDigits (stripWs s.data) = none :=
      parseDigits_eq_none_of_nondigit _ hall
    simp [this]

lemma numCardsCount_good (r : Row) (h : goodCountB r = true) :
    ∃ n : Int, numCardsCount r = Except.ok n ∧ 0 ≤ n ∧ n.toNat = claimN r := by
  unfold goodCountB at h
  cases hget : Row.get r "num_cards" with
  | none =>
    exact ⟨1, by simp [numCardsCount, hget], by decide, by simp [claimN, hget]⟩
  | some s =>
    simp only [hget] at h
    by_cases hdf : digitFree s = true
    · exact ⟨1, by simp [numCardsCount, hget, hdf], by decide, by simp [claimN, hget, hdf]⟩
    · rw [Bool.not_eq_true] at hdf
      rw [hdf] at h
      simp only [Bool.false_or] at h
      cases hp : pyInt s with
      | none => rw [hp] at h; exact absurd h (by simp)
      | some n =>
        rw [hp] at h
        simp only [decide_eq_true_eq] at h
        exact ⟨n, by simp [numCardsCount, hget, hdf, hp], h,
          by simp [claimN, hget, hdf, hp]⟩

lemma ignoredRow_iff (r : Row) :
    ignoredRow r = true ↔ ∃ v, Row.get r "ignore" = some v ∧ lowerStr v = "true" := by
  unfold ignoredRow
  cases hget : Row.get r "ignore" with
  | none =>
    simp [hget]
    decide
  | some v =>
    simp [hget]

lemma expandRows_eq_spec (render : Nat → Row → String) (rows : List Row) :
    ∀ i, (∀ row ∈ rows, ignoredRow row = false → goodCountB row = true) →
      expandRows render i rows = Except.ok (specExpandFrom render i rows) := by
  induction rows with
  | nil => intro i _; rfl
  | cons row rest ih =>
    intro i h
    have hrest : ∀ r ∈ rest, ignoredRow r = false → goodCountB r = true :=
      fun r hr => h r (List.mem_cons_of_mem _ hr)
    by_cases hig : ignoredRow row = true
    · simp [expandRows, hig, specExpandFrom, ih (i + 1) hrest]
    · rw [Bool.not_eq_true] at hig
      obtain ⟨n, hcount, _, htn⟩ := numCardsCount_good row (h row (List.mem_cons_self row rest) hig)
      simp [expandRows, hig, hcount, ih (i + 1) hrest, specExpandFrom, htn]

/-! ### Claims about the Fragment Expander -/

/-- C1: for every ordered sequence of input rows whose non-ignored rows carry
a well-formed `num_cards` (absent, digit-free, or a non-negative integer),
the expander's output is, in row order, the concatenation over non-ignored
rows of exactly `claimN` contiguous identical copies of that row's rendered
text, where `claimN` is `num_cards` parsed as a non-negative integer, 0
yielding zero fragments and the count defaulting to 1 when `num_cards` is
absent or contains no digit characters. -/
theorem claim_C1 (render : Nat → Row → String) (rows : List Row)
    (h : ∀ row ∈ rows, ignoredRow row = false → goodCountB row = true) :
    expandRows render 0 rows = Except.ok (specExpandFrom render 0 rows) :=
  expandRows_eq_spec render rows 0 h

/-- Witness for C1 at the specification's own example: rows Ace (2 copies),
King (ignored), Queen (1 copy) yield exactly the fragments
`[Ace, Ace, Queen]`. -/
theorem claim_C1_witness :
    (∀ row ∈ ([⟨[("name", "Ace"), ("num_cards", "2"), ("ignore", "")]⟩,
               ⟨[("name", "King"), ("num_cards", ""), ("ignore", "true")]⟩,
               ⟨[("name", "Queen"), ("num_cards", "1"), ("ignore", "false")]⟩] : List Row),
        ignoredRow row = false → goodCountB row = true) ∧
    expandRows (fun _ row => "<div>" ++ ((Row.get row "name").getD "") ++ "</div>") 0
        [⟨[("name", "Ace"), ("num_cards", "2"), ("ignore", "")]⟩,
         ⟨[("name", "King"), ("num_cards", ""), ("ignore", "true")]⟩,
         ⟨[("name", "Queen"), ("num_cards", "1"), ("ignore", "false")]⟩] =
      Except.ok ["<div>Ace</div>", "<div>Ace</div>", "<div>Queen</div>"] :=
  ⟨by decide, by
    have h := claim_C1 (fun _ row => "<div>" ++ ((Row.get row "name").getD "") ++ "</div>")
      [⟨[("name", "Ace"), ("num_cards", "2"), ("ignore", "")]⟩,
       ⟨[("name", "King"), ("num_cards", ""), ("ignore", "true")]⟩,
       ⟨[("name", "Queen"), ("num_cards", "1"), ("ignore", "false")]⟩] (by decide)
    exact h.trans (by rfl)⟩

/-- C3, counterexample: the claim says no possible `num_cards` string can
abort the render, but the value `"2x"` contains a digit, so it escapes the
digit-free default and reaches `int("2x")`, whose `ValueError` aborts the
deck's render pass. -/
theorem claim_C3_counterexample :
    numCardsCount ⟨[("num_cards", "2x")]⟩ = Except.error "2x" ∧
    expandRows (fun _ _ => "frag") 0 [⟨[("num_cards", "2x")]⟩] = Except.error "2x" :=
  ⟨rfl, rfl⟩

/-- C3, amended: a missing `num_cards`, or one containing no digit character,
defaults to 1 and never aborts; but a value containing at least one digit is
handed to `int()`, and when that parse fails the error aborts the deck's
render pass instead of defaulting to 1. -/
theorem claim_C3_amended (row : Row) (s : String) :
    (Row.get row "num_cards" = none → numCardsCount row = Except.ok 1) ∧
    (Row.get row "num_cards" = some s → digitFree s = true →
      numCardsCount row = Except.ok 1) ∧
    (Row.get row "num_cards" = some s → digitFree s = false →
      numCardsCount row =
        match pyInt s with
        | some n => Except.ok n
        | none => Except.error s) := by
  refine ⟨fun h => ?_, fun h hdf => ?_, fun h hdf => ?_⟩
  · simp [numCardsCount, h]
  · simp [numCardsCount, h, hdf]
  · simp [numCardsCount, h, hdf]

/-- Witness for the amended C3 at three concrete rows: `num_cards` absent,
digit-free (`"abc"`), and digit-containing but unparsable (`"2x"`). -/
theorem claim_C3_amended_witness :
    numCardsCount ⟨[]⟩ = Except.ok 1 ∧
    numCardsCount ⟨[("num_cards", "abc")]⟩ = Except.ok 1 ∧
    numCardsCount ⟨[("num_cards", "2x")]⟩ = Except.error "2x" :=
  ⟨(claim_C3_amended ⟨[]⟩ "").1 (by rfl),
   (claim_C3_amended ⟨[("num_cards", "abc")]⟩ "abc").2.1 (by rfl) (by rfl),
   ((claim_C3_amended ⟨[("num_cards", "2x")]⟩ "2x").2.2 (by rfl) (by rfl)).trans (by rfl)⟩

/-- C6: a row whose `ignore` field is present with a value that
case-insensitively equals "true" contributes zero fragments, whatever its
`num_cards` says; a row whose `ignore` field is absent, or holds any other
value, is not skipped and is processed through the repetition-count logic. -/
theorem claim_C6 (render : Nat → Row → String) (i : Nat) (row : Row) (rest : List Row) :
    ((∃ v, Row.get row "ignore" = some v ∧ lowerStr v = "true") →
      expandRows render i (row :: rest) = expandRows render (i + 1) rest) ∧
    ((∀ v, Row.get row "ignore" = some v → lowerStr v ≠ "true") →
      expandRows render i (row :: rest) =
        match numCardsCount row with
        | Except.error e => Except.error e
        | Except.ok n =>
          (expandRows render (i + 1) rest).map
            (fun tail => List.replicate n.toNat (render i row) ++ tail)) := by
  constructor
  · intro hex
    have hig : ignoredRow row = true := (ignoredRow_iff row).mpr hex
    simp [expandRows, hig]
  · intro hno
    have hig : ignoredRow row = false := by
      rw [← Bool.not_eq_true, ignoredRow_iff]
      rintro ⟨v, hv, hlow⟩
      exact hno v hv hlow
    simp only [expandRows, hig, Bool.false_eq_true, if_false]
    cases numCardsCount row with
    | error e => rfl
    | ok n =>
      cases expandRows render (i + 1) rest with
      | error e => rfl
      | ok tail => rfl

/-- Witness for C6: a row with `ignore = "TRUE"` yields no fragment even with
`num_cards = 5`; a row with `ignore = "no"` yields its fragment. -/
theorem claim_C6_witness :
    expandRows (fun _ _ => "frag") 0 [⟨[("ignore", "TRUE"), ("num_cards", "5")]⟩] =
      Except.ok [] ∧
    expandRows (fun _ _ => "frag") 0 [⟨[("ignore", "no")]⟩] = Except.ok ["frag"] := by
  constructor
  · have h := (claim_C6 (fun _ _ => "frag") 0 ⟨[("ignore", "TRUE"), ("num_cards", "5")]⟩ []).1
      ⟨"TRUE", by rfl, by rfl⟩
    exact h.trans (by rfl)
  · have h := (claim_C6 (fun _ _ => "frag") 0 ⟨[("ignore", "no")]⟩ []).2
      (by
        intro v hv
        have : v = "no" := by simpa [Row.get] using hv.symm
        subst this
        decide)
    exact h.trans (by rfl)

/-- C10: a `num_cards` value parsing to a negative integer (it necessarily
contains a digit, so it is not defaulted to 1) makes `range(0, n)` empty: the
row contributes zero fragments and raises no error, observably the same as
`num_cards = 0`. -/
theorem claim_C10 (render : Nat → Row → String) (i : Nat) (row : Row) (rest : List Row)
    (s : String) (n : Int) (hget : Row.get row "num_cards" = some s)
    (hparse : pyInt s = some n) (hneg : n < 0) :
    numCardsCount row = Except.ok n ∧
    expandRows render i (row :: rest) = expandRows render (i + 1) rest := by
  have hdf : digitFree s = false := by
    cases hdf : digitFree s with
    | false => rfl
    | true => rw [pyInt_eq_none_of_digitFree s hdf] at hparse; exact absurd hparse (by simp)
  have hcount : numCardsCount row = Except.ok n := by
    simp [numCardsCount, hget, hdf, hparse]
  refine ⟨hcount, ?_⟩
  by_cases hig : ignoredRow row = true
  · simp [expandRows, hig]
  · rw [Bool.not_eq_true] at hig
    have htn : n.toNat = 0 := Int.toNat_of_nonpos hneg.le
    simp only [expandRows, hig, Bool.false_eq_true, if_false, hcount, htn,
      List.replicate_zero, List.nil_append]
    cases expandRows render (i + 1) rest with
    | error e => rfl
    | ok tail => rfl

/-- Witness for C10 at `num_cards = "-2"`: the count parses to −2 without
error and the row yields zero fragments. -/
theorem claim_C10_witness :
    numCardsCount ⟨[("num_cards", "-2")]⟩ = Except.ok (-2) ∧
    expandRows (fun _ _ => "frag") 0 [⟨[("num_cards", "-2")]⟩] = Except.ok [] := by
  have h := claim_C10 (fun _ _ => "frag") 0 ⟨[("num_cards", "-2")]⟩ [] "-2" (-2)
    (by rfl) (by rfl) (by decide)
  exact ⟨h.1, h.2.trans (by rfl)⟩

/-! ### Claims about the Change Watcher and the Document Composer -/

lemma runRenderLoop_all_ok (l : List SessionSpec)
    (h : ∀ s ∈ l, s.renderResult = Except.ok ()) :
    runRenderLoop l = (l.map SessionSpec.id, none) := by
  induction l with
  | nil => rfl
  | cons s rest ih =>
    have hs := h s (List.mem_cons_self s rest)
    simp [runRenderLoop, hs, ih (fun u hu => h u (List.mem_cons_of_mem s hu))]

lemma runRenderLoop_first_error (pre : List SessionSpec) (s : SessionSpec)
    (post : List SessionSpec) (e : String)
    (hok : ∀ t ∈ pre, t.renderResult = Except.ok ())
    (herr : s.renderResult = Except.error e) :
    runRenderLoop (pre ++ s :: post) = (pre.map SessionSpec.id ++ [s.id], some e) := by
  induction pre with
  | nil => simp [runRenderLoop, herr]
  | cons t ts ih =>
    have ht := hok t (List.mem_cons_self t ts)
    have hts : ∀ u ∈ ts, u.renderResult = Except.ok () :=
      fun u hu => hok u (List.mem_cons_of_mem t hu)
    simp [runRenderLoop, ht, ih hts]

/-- C2, counterexample: with two active renderers whose output paths do not
match the event, a failure in the first renderer's `render_cards()` escapes
the `for` loop of `on_any_event`, and the second renderer is never invoked —
the failure does cross deck boundaries. -/
theorem claim_C2_counterexample :
    on_any_event
        [⟨"A", "outA", Except.error "boom"⟩, ⟨"B", "outB", Except.ok ()⟩] "data.csv" =
      (["A"], some "boom") ∧
    "B" ∉ (on_any_event
        [⟨"A", "outA", Except.error "boom"⟩, ⟨"B", "outB", Except.ok ()⟩] "data.csv").fst :=
  ⟨rfl, by decide⟩

/-- C2, amended: `on_any_event` invokes the renderers in order with no
wrapping; when one renderer's `render_cards()` raises, the renderers after it
are not invoked in that pass and the exception escapes the handler. -/
theorem claim_C2_amended (pre : List SessionSpec) (s : SessionSpec) (post : List SessionSpec)
    (e : String) (path : String)
    (hok : ∀ t ∈ pre, t.renderResult = Except.ok ())
    (herr : s.renderResult = Except.error e)
    (hpath : (((pre ++ s :: post).map SessionSpec.outputPath).contains path) = false) :
    on_any_event (pre ++ s :: post) path = (pre.map SessionSpec.id ++ [s.id], some e) := by
  unfold on_any_event
  rw [hpath]
  simp only [Bool.false_eq_true, if_false]
  exact runRenderLoop_first_error pre s post e hok herr

/-- Witness for the amended C2: renderer B fails, so A and B are invoked but
C is not, and the exception escapes. -/
theorem claim_C2_amended_witness :
    on_any_event
        [⟨"A", "outA", Except.ok ()⟩, ⟨"B", "outB", Except.error "boom"⟩,
         ⟨"C", "outC", Except.ok ()⟩] "data.csv" =
      (["A", "B"], some "boom") := by
  have h := claim_C2_amended [⟨"A", "outA", Except.ok ()⟩]
    ⟨"B", "outB", Except.error "boom"⟩ [⟨"C", "outC", Except.ok ()⟩] "boom" "data.csv"
    (by
      intro t ht
      simp only [List.mem_singleton] at ht
      subst ht
      rfl)
    (by rfl) (by rfl)
  exact h

/-- C5: when the event path equals some active renderer's output path, no
render is invoked at all; otherwise (and with every render succeeding, as the
loop stops at an exception) `render_cards()` is invoked on every active
renderer, not only the one owning the changed file. -/
theorem claim_C5 (sessions : List SessionSpec) (path : String) :
    ((sessions.map SessionSpec.outputPath).contains path = true →
      on_any_event sessions path = ([], none)) ∧
    ((sessions.map SessionSpec.outputPath).contains path = false →
      (∀ s ∈ sessions, s.renderResult = Except.ok ()) →
      on_any_event sessions path = (sessions.map SessionSpec.id, none)) := by
  constructor
  · intro h
    unfold on_any_event
    exact if_pos h
  · intro h hok
    unfold on_any_event
    rw [h]
    simp only [Bool.false_eq_true, if_false]
    exact runRenderLoop_all_ok sessions hok

/-- Witness for C5: an event on `outB` (deck B's own output) triggers no
render; an event on `data.csv` triggers both decks' renders. -/
theorem claim_C5_witness :
    on_any_event [⟨"A", "outA", Except.ok ()⟩, ⟨"B", "outB", Except.ok ()⟩] "outB" =
      ([], none) ∧
    on_any_event [⟨"A", "outA", Except.ok ()⟩, ⟨"B", "outB", Except.ok ()⟩] "data.csv" =
      (["A", "B"], none) := by
  constructor
  · exact (claim_C5 [⟨"A", "outA", Except.ok ()⟩, ⟨"B", "outB", Except.ok ()⟩] "outB").1
      (by rfl)
  · exact (claim_C5 [⟨"A", "outA", Except.ok ()⟩, ⟨"B", "outB", Except.ok ()⟩] "data.csv").2
      (by rfl)
      (by
        intro s hs
        simp only [List.mem_cons, List.not_mem_nil, or_false] at hs
        rcases hs with rfl | rfl <;> rfl)

/-- C4, counterexample: the output file is opened for writing — truncated —
before the composition template is rendered, so a composition failure
replaces the previously written content with the empty (truncated) state:
on a pass with prior output "old content" and a failing composition, the
output ends as "", not "old content". -/
theorem claim_C4_counterexample :
    render_cards
        { csvRows := Except.ok [], cardTemplate := fun _ _ => "",
          headerExists := false, headerContents := "",
          composeTemplate := fun _ _ => Except.error "TemplateError",
          priorOutput := "old content" } = ("", some "TemplateError") ∧
    ("" : String) ≠ "old content" :=
  ⟨rfl, by decide⟩

/-- C4, amended: the overwrite is not atomic.  Failures while reading the
data source or expanding rows leave the prior output intact (the file is not
yet open), but once composition starts the output has already been
truncated: any composition failure leaves the output empty, destroying the
previously written content. -/
theorem claim_C4_amended (p : RenderPass) (rows : List Row) (frags : List String) (e : String)
    (h1 : p.csvRows = Except.ok rows)
    (h2 : expandRows p.cardTemplate 0 rows = Except.ok frags)
    (h3 : p.composeTemplate frags (customHeaderOf p.headerExists p.headerContents) =
      Except.error e) :
    render_cards p = ("", some e) := by
  simp [render_cards, h1, h2, h3]

/-- Witness for the amended C4: one row, failing composition — the pass ends
with an empty output file and the escaping error. -/
theorem claim_C4_amended_witness :
    render_cards
        { csvRows := Except.ok [⟨[("name", "x")]⟩], cardTemplate := fun _ _ => "f",
          headerExists := false, headerContents := "",
          composeTemplate := fun _ _ => Except.error "TemplateError",
          priorOutput := "old content" } = ("", some "TemplateError") :=
  claim_C4_amended _ [⟨[("name", "x")]⟩] ["f"] "TemplateError" rfl rfl rfl

/-- C7: a missing custom header file makes the pass hand `none` — not the
empty string — to the composition template, and an existing-but-empty header
file hands `some ""`; the two are distinguishable, observably so in the
composed output. -/
theorem claim_C7 (c : String) :
    customHeaderOf false c = none ∧
    customHeaderOf true "" = some "" ∧
    customHeaderOf false c ≠ customHeaderOf true "" ∧
    render_cards
        { csvRows := Except.ok [], cardTemplate := fun _ _ => "",
          headerExists := false, headerContents := "",
          composeTemplate := fun _ h =>
            Except.ok (match h with | none => "no-header" | some s => "header:" ++ s),
          priorOutput := "" } ≠
      render_cards
        { csvRows := Except.ok [], cardTemplate := fun _ _ => "",
          headerExists := true, headerContents := "",
          composeTemplate := fun _ h =>
            Except.ok (match h with | none => "no-header" | some s => "header:" ++ s),
          priorOutput := "" } := by
  refine ⟨rfl, rfl, by simp [customHeaderOf], by decide⟩

/-! ### Claims about Deck Discovery and renderer construction -/

/-- Dict lookup (`files[identifier]`) on the association-list representation
of the discovery mapping. -/
def lookupKey (key : String) : List (String × String) → Option String
  | [] => none
  | (k, v) :: rest => if k = key then some v else lookupKey key rest

lemma lookupKey_insertOrReplace (l : List (String × String)) (k v key : String) :
    lookupKey key (insertOrReplace l k v) =
      if k = key then some v else lookupKey key l := by
  induction l with
  | nil => rfl
  | cons p rest ih =>
    obtain ⟨k0, v0⟩ := p
    by_cases hk : k0 = k
    · subst hk
      by_cases hkey : k0 = key
      · subst hkey
        simp [insertOrReplace, lookupKey]
      · simp [insertOrReplace, lookupKey, hkey]
    · by_cases hkey : k0 = key
      · subst hkey
        have hne : ¬k = k0 := fun h => hk h.symm
        simp [insertOrReplace, hk, lookupKey, hne]
      · simp [insertOrReplace, hk, lookupKey, hkey, ih]

lemma lookupKey_re_glob_aux (mf : String → Option String) (key : String)
    (files : List String) :
    ∀ acc : List (String × String),
      lookupKey key
          (files.foldl
            (fun acc file =>
              match mf file with
              | some g => insertOrReplace acc g file
              | none => acc)
            acc) =
        match lastMatch mf key files with
        | some v => some v
        | none => lookupKey key acc := by
  induction files with
  | nil =>
    intro acc
    simp [lastMatch]
  | cons f fs ih =>
    intro acc
    simp only [List.foldl_cons]
    rw [ih]
    cases hl : lastMatch mf key fs with
    | some v => simp [lastMatch, hl]
    | none =>
      simp only [lastMatch, hl]
      cases hf : mf f with
      | none => simp
      | some g =>
        simp only [lookupKey_insertOrReplace]
        by_cases hg : g = key
        · subst hg
          simp
        · have : (some g == some key) = false := by
            simpa using hg
          simp [hg, this]

lemma lastMatch_eq_none_iff (mf : String → Option String) (key : String)
    (files : List String) :
    lastMatch mf key files = none ↔ ∀ f ∈ files, mf f ≠ some key := by
  induction files with
  | nil => simp [lastMatch]
  | cons f fs ih =>
    simp only [lastMatch]
    cases hl : lastMatch mf key fs with
    | some v =>
      simp only [List.mem_cons]
      constructor
      · intro h; exact absurd h (by simp)
      · intro h
        have : lastMatch mf key fs = none :=
          ih.mpr (fun u hu => h u (Or.inr hu))
        rw [hl] at this
        exact absurd this (by simp)
    | none =>
      rw [hl] at ih
      have hfs : ∀ u ∈ fs, mf u ≠ some key := ih.mp rfl
      by_cases hf : mf f = some key
      · have : (mf f == some key) = true := by simp [hf]
        simp only [this, if_true]
        constructor
        · intro h; exact absurd h (by simp)
        · intro h; exact absurd hf (h f (List.mem_cons_self f fs))
      · have : (mf f == some key) = false := by simpa using hf
        simp only [this, if_false, Bool.false_eq_true]
        constructor
        · intro _ u hu
          rcases List.mem_cons.mp hu with rfl | hu'
          · exact hf
          · exact hfs u hu'
        · intro _; trivial

/-- C8: for every directory listing and discovery match function, the
mapping produced by `re_glob` is keyed by the captured identifier: looking
up an identifier yields the last listed filename whose capture equals it
(later matches silently overwrite earlier ones), and an identifier is absent
exactly when no filename captures it. -/
theorem claim_C8 (mf : String → Option String) (files : List String) (key : String) :
    lookupKey key (re_glob mf files) = lastMatch mf key files ∧
    (lastMatch mf key files = none ↔ ∀ f ∈ files, mf f ≠ some key) := by
  constructor
  · unfold re_glob
    rw [lookupKey_re_glob_aux mf key files []]
    cases hl : lastMatch mf key files <;> simp [lookupKey]
  · exact lastMatch_eq_none_iff mf key files

/-- C9: in pattern mode with at least one discovered identifier, leaving
`--csv` or `--css` at its default `None` makes renderer construction fail
(`.format` is applied to `None`) before any renderer exists — while in
single-deck mode the same `None` arguments fall back to the prefix-derived
default paths. -/
theorem claim_C9 (assets pfx rcf : String) (csvf cssf : Option String) (pat m : String)
    (ms : List String) (hmiss : csvf = none ∨ cssf = none) :
    (∃ e, buildRenderers assets pfx rcf csvf cssf (some pat) (m :: ms) = Except.error e) ∧
    buildRenderers assets pfx rcf none none none (m :: ms) =
      Except.ok [mkCardRenderer assets pfx rcf none none] ∧
    (mkCardRenderer assets pfx rcf none none).csv_card_path = get_path assets pfx "csv" ∧
    (mkCardRenderer assets pfx rcf none none).css_file = pfx ++ ".css" := by
  refine ⟨?_, rfl, rfl, rfl⟩
  rcases hmiss with h | h
  · subst h
    exact ⟨"AttributeError: NoneType has no attribute format", rfl⟩
  · subst h
    cases csvf with
    | none => exact ⟨"AttributeError: NoneType has no attribute format", rfl⟩
    | some s => exact ⟨"AttributeError: NoneType has no attribute format", rfl⟩

/-- Witness for C9: pattern mode with identifier "red" and `--csv` left at
`None` fails, while single-deck mode derives `assets/_card.csv` and
`_card.css`. -/
theorem claim_C9_witness :
    (∃ e, buildRenderers "assets" "_card" "index.html" none (some "deck.css")
        (some "pat") ["red"] = Except.error e) ∧
    buildRenderers "assets" "_card" "index.html" none none none ["red"] =
      Except.ok [mkCardRenderer "assets" "_card" "index.html" none none] ∧
    (mkCardRenderer "assets" "_card" "index.html" none none).csv_card_path =
      get_path "assets" "_card" "csv" ∧
    (mkCardRenderer "assets" "_card" "index.html" none none).css_file = "_card" ++ ".css" :=
  claim_C9 "assets" "_card" "index.html" none (some "deck.css") "pat" "red" [] (Or.inl rfl)

end Pycard
